import Mathlib

/-!
Verification of the PIA (Project Identity Authority) token verification and
project-matching engine: a shallow embedding of `pia/models.py`,
`pia/oidc.py`, `pia/dependencytrack.py` and the authorization flow of
`pia/main.py`, together with theorems settling the specification claims.

Conventions of the embedding:
* JSON claim values are modelled by `JVal` (strings and integers, the only
  shapes the engine inspects); a claims mapping (`dict[str, Any]`) is an
  association list looked up by `claimsGet` (first binding wins, as in a
  Python dict where keys are unique).
* Fallible Python code is modelled with `Except`/`Option`; an uncaught
  Python exception at the top level of the request handler is a distinct
  `UploadOutcome.pythonError` outcome.
* Library behaviour that the source invokes (PyJWT decode, pydantic URL
  validation) is modelled from the documented semantics of those libraries
  at exactly the option sets the source passes them.
-/

/-- A JSON claim value as inspected by the engine: PyJWT hands `pia` string
and number claim values; all comparisons in the source are Python `==`. -/
inductive JVal where
  | str : String → JVal
  | num : Int → JVal
deriving DecidableEq, Repr

/-- A claims mapping (`dict[str, Any]` in the source). -/
abbrev Claims := List (String × JVal)

/-- `d.get(k)` / `d[k]` lookup on a claims mapping (first binding wins). -/
def claimsGet (c : Claims) (name : String) : Option JVal :=
  (c.find? (fun kv => kv.1 == name)).map (·.2)

/-- Embedding of `pia.models.Project` (`pia/models.py`).  The `issuer`
field holds the canonical string form of the validated `HttpsUrl`
(`str(self.issuer)` in the source); with `preserve_empty_path=True` no
trailing slash is added at load time, so the stored string is exactly the
configured one. -/
structure Project where
  project_id : String
  issuer : String
  dt_parent_uuid : String
  required_claims : List (String × String)
deriving DecidableEq, Repr

namespace Project

/-- `Project.match_issuer`: `return issuer == str(self.issuer)`.  The
argument is the raw (possibly non-string) value taken from a token's
`iss` claim; Python `==` between a non-string and a string is `False`. -/
def match_issuer (p : Project) (issuer : JVal) : Bool :=
  issuer == JVal.str p.issuer

/-- `Project.match_claims`: every `(claim_name, expected_value)` of
`required_claims` must satisfy `token_claims.get(claim_name) ==
expected_value`; `.get` of an absent key yields `None`, which never equals
a string, so an absent required claim is a non-match. -/
def match_claims (p : Project) (token_claims : Claims) : Bool :=
  p.required_claims.all (fun rc => claimsGet token_claims rc.1 == some (JVal.str rc.2))

end Project

namespace Projects

/-- `Projects.has_issuer`: `any(project.match_issuer(issuer) for project in self.root)`. -/
def has_issuer (root : List Project) (issuer : JVal) : Bool :=
  root.any (fun p => p.match_issuer issuer)

/-- `Projects.find_project_by_claims`.  `issuer = token_claims["iss"]`
raises `KeyError` when `"iss"` is absent (the `.error` case); otherwise the
`for` loop returns the first project for which both `match_issuer` and
`match_claims` hold, or `None`. -/
def find_project_by_claims (root : List Project) (token_claims : Claims) :
    Except Unit (Option Project) :=
  match claimsGet token_claims "iss" with
  | none => .error ()
  | some issuer =>
      .ok (root.find? (fun p => p.match_issuer issuer && p.match_claims token_claims))

end Projects

/-! ### Registry loading (`Projects.from_yaml_file`)

`from_yaml_file` opens the path, `yaml.safe_load`s it and runs pydantic
validation (`Projects.model_validate`).  The YAML source is modelled by
what that pipeline observes: either reading/parsing raises (`unreadable`),
or the document is not a list of mappings, or it is a list of raw entries
with optional fields.  Pydantic's `HttpsUrl` check
(`UrlConstraints(allowed_schemes=["https"])`, `pia/models.py`) is modelled
by `isHttpsUrl`. -/

/-- One raw YAML mapping before validation; `none` fields are absent keys. -/
structure RawEntry where
  project_id : Option String
  issuer : Option String
  dt_parent_uuid : Option String
  required_claims : Option (List (String × String))
deriving DecidableEq, Repr

/-- Model of pydantic's scheme check for `HttpsUrl`: the URL must parse
with scheme `https` (prefix `https://`) and a nonempty remainder. -/
def isHttpsUrl (s : String) : Bool :=
  "https://".data.isPrefixOf s.data && s.length > 8

/-- Validation of a single registry entry: the three required fields must
be present and the issuer must be an HTTPS URL; `required_claims` defaults
to the empty mapping. -/
def validateEntry (e : RawEntry) : Except String Project :=
  match e.project_id with
  | none => .error "project_id: Field required"
  | some pid =>
  match e.issuer with
  | none => .error "issuer: Field required"
  | some iss =>
  if !isHttpsUrl iss then .error "issuer: URL scheme should be https" else
  match e.dt_parent_uuid with
  | none => .error "dt_parent_uuid: Field required"
  | some uuid => .ok ⟨pid, iss, uuid, e.required_claims.getD []⟩

/-- Validation of the whole document: every entry must validate (pydantic
rejects the document if any entry fails). -/
def validateEntries : List RawEntry → Except String (List Project)
  | [] => .ok []
  | e :: es =>
      match validateEntry e with
      | .error m => .error m
      | .ok p =>
          match validateEntries es with
          | .error m => .error m
          | .ok ps => .ok (p :: ps)

/-- What `open` + `yaml.safe_load` can hand to `model_validate`. -/
inductive YamlSource where
  | unreadable
  | notAList
  | entries (es : List RawEntry)
deriving DecidableEq, Repr

/-- `Projects.from_yaml_file`: an unreadable or unparsable source raises
(`OSError`/`YAMLError`, uncaught); a document that is not a list fails
`model_validate`; otherwise every entry is validated. -/
def from_yaml_file : YamlSource → Except String (List Project)
  | .unreadable => .error "OSError: source unreadable"
  | .notAList => .error "ValidationError: input should be a valid list"
  | .entries es => validateEntries es

/-! ### Signature verification (`pia/oidc.py`)

`verify_token` fetches `{issuer}/.well-known/openid-configuration`,
extracts `jwks_uri`, resolves the signing key with
`PyJWKClient.get_signing_key_from_jwt`, and calls `jwt.decode` with
`algorithms=["RS256"]`, the expected audience, and
`require={"aud","exp","iat"} | required_claims`.  The two network steps
and the key resolution are inputs of the model (`VerifyEnv`); `jwt.decode`
is modelled by `jwtDecodeVerify` following PyJWT's validation order at the
option set the source passes (signature, required claims, `iat`, `nbf`,
`exp`, `aud`; no issuer argument is passed, so PyJWT performs no `iss`
validation). -/

/-- The OIDC discovery document, as read by `verify_token`: only
`oidc_config.get("jwks_uri")` is inspected. -/
structure OidcConfig where
  jwks_uri : Option String
deriving DecidableEq, Repr

/-- The signing key resolved by `PyJWKClient.get_signing_key_from_jwt`,
identified abstractly by its key id. -/
structure SigningKey where
  kid : String
deriving DecidableEq, Repr

/-- A parsed JWT: its header algorithm, its payload claims, and the set of
key ids under which its signature verifies. -/
structure Jwt where
  alg : String
  claims : Claims
  validKeys : List String
deriving DecidableEq, Repr

/-- Outcomes of the effectful steps of one `verify_token` call: the
discovery fetch (a `RequestException` on failure), the key resolution (any
exception on failure), and the current time used by temporal checks. -/
structure VerifyEnv where
  fetchConfig : Except String OidcConfig
  getKey : Except String SigningKey
  now : Int
deriving Repr

/-- The `exp` and `aud` validations of `jwt.decode` (split out of
`jwtDecodeVerify` for readability): `exp` must be an integer strictly in
the future, `aud` must equal the expected audience string. -/
def jwtDecodeExpAud (tok : Jwt) (audience : String) (now : Int) :
    Except String Claims :=
  match claimsGet tok.claims "exp" with
  | some (.str _) => .error "Expiration Time claim exp must be an integer"
  | some (.num e) =>
      if e ≤ now then .error "Signature has expired" else
      match claimsGet tok.claims "aud" with
      | some (.str a) =>
          if a == audience then .ok tok.claims
          else .error "Audience does not match"
      | some (.num _) => .error "Invalid claim format in token"
      | none => .error "Token is missing the aud claim"
  | _ =>
      match claimsGet tok.claims "aud" with
      | some (.str a) =>
          if a == audience then .ok tok.claims
          else .error "Audience does not match"
      | some (.num _) => .error "Invalid claim format in token"
      | none => .error "Token is missing the aud claim"

/-- Model of `jwt.decode(token, key, algorithms=["RS256"], audience=...,
options=dict(verify_signature=True, verify_exp=True, verify_aud=True,
verify_iat=True, require=...))`, following PyJWT: reject a header `alg`
outside the allowed list, verify the signature against the key, require
presence of every claim in `require`, then validate `iat` (integer),
`nbf` (not in the future, when present), `exp` (in the future) and `aud`
(equal to the expected audience).  No `issuer` argument is passed, so no
`iss` validation runs. -/
def jwtDecodeVerify (tok : Jwt) (key : SigningKey) (audience : String)
    (require : List String) (now : Int) : Except String Claims :=
  if tok.alg != "RS256" then
    .error "The specified alg value is not allowed"
  else if !(tok.validKeys.contains key.kid) then
    .error "Signature verification failed"
  else if !(require.all (fun n => (claimsGet tok.claims n).isSome)) then
    .error "Token is missing a required claim"
  else
  match claimsGet tok.claims "iat" with
  | some (.str _) => .error "Issued At claim iat must be an integer"
  | _ =>
  match claimsGet tok.claims "nbf" with
  | some (.str _) => .error "Not Before claim nbf must be an integer"
  | some (.num n) =>
      if n > now then .error "The token is not yet valid" else
      jwtDecodeExpAud tok audience now
  | none => jwtDecodeExpAud tok audience now

/-- Embedding of `pia.oidc.verify_token`.  The `issuer` argument is used
only to build the discovery URL of the fetch (reflected in the error
message); every failure is a `TokenVerificationError` (`.error`). -/
def verify_token (env : VerifyEnv) (tok : Jwt) (issuer : String)
    (expected_audience : String) (required_claims : List String) :
    Except String Claims :=
  match env.fetchConfig with
  | .error e =>
      .error ("Failed to fetch OIDC configuration from " ++ issuer ++
        "/.well-known/openid-configuration: " ++ e)
  | .ok cfg =>
  match cfg.jwks_uri with
  | none => .error "OIDC configuration missing jwks_uri"
  | some u =>
  if u == "" then .error "OIDC configuration missing jwks_uri" else
  match env.getKey with
  | .error e => .error e
  | .ok key =>
      jwtDecodeVerify tok key expected_audience
        (["aud", "exp", "iat"] ++ required_claims) env.now

/-! ### The broker orchestrator (`pia/main.py`, `upload_sbom`)

The request handler sequences: bearer-scheme check, unverified decode
(`jwt.decode(token, options=dict(verify_signature=False,
require=["iss"]))`), issuer pre-filter (`projects.has_issuer`), the
signature-verification call, project matching
(`projects.find_project_by_claims`), and the DependencyTrack relay.  The
decode of the token string and the downstream call are inputs of the
model.

The signature-verification step deserves care: `pia/main.py` invokes
`oidc.verify_token(token, unverified_issuer, settings.expected_audience)`
with three arguments, but `pia/oidc.py` declares
`verify_token(token, issuer, expected_audience, required_claims)` with no
default for `required_claims`, so in Python the call expression itself
raises `TypeError` before the function body runs; the surrounding
`except oidc.TokenVerificationError` clause does not catch `TypeError`.
`VerifyOutcome` covers the three conceivable outcomes of the call
expression, and `actualVerifyOutcome` pins down which one the source
produces. -/

/-- Response object returned by `requests.post` inside
`dependencytrack.upload_sbom` (`pia/dependencytrack.py`): the handler
relays its status code and content. -/
structure DtResponse where
  status_code : Nat
  content : String
deriving DecidableEq, Repr

/-- Outcome of evaluating the call expression
`oidc.verify_token(token, unverified_issuer, settings.expected_audience)`
in `upload_sbom`. -/
inductive VerifyOutcome where
  | typeError
  | tokenError (msg : String)
  | ok (claims : Claims)
deriving DecidableEq, Repr

/-- The outcome `upload_sbom` actually produces at its `verify_token`
call: `pia/oidc.py` requires the fourth positional parameter
`required_claims` (no default), and `pia/main.py` passes three arguments,
so the call raises `TypeError` unconditionally. -/
def actualVerifyOutcome : VerifyOutcome := .typeError

/-- Externally visible outcome of one `upload_sbom` request: a relayed
downstream response, an `HTTPException` with a status and detail, or an
uncaught Python exception (which FastAPI turns into a 500-class server
error, not an `HTTPException` raised by the handler). -/
inductive UploadOutcome where
  | relayed (status : Nat) (content : String)
  | failure (status : Nat) (detail : String)
  | pythonError (msg : String)
deriving DecidableEq, Repr

/-- Embedding of the `upload_sbom` handler of `pia/main.py`.

* `projects` is `request.app.state.projects` (loaded once at startup);
* `authorization` is the `Authorization` header;
* `parse` is the outcome of the unverified structural decode of the token
  (`none` when `jwt.decode` raises `PyJWTError` on a malformed token);
  the `require=["iss"]` option makes an absent `iss` a `PyJWTError` too;
* `verify` is the outcome of the `oidc.verify_token` call expression
  (`actualVerifyOutcome` in the deployed source);
* `dt` is the outcome of `dependencytrack.upload_sbom`
  (`.error` when `requests.post` raises, wrapped into
  `DependencyTrackError`). -/
def upload_sbom (projects : List Project) (authorization : String)
    (parse : Option Claims) (verify : VerifyOutcome)
    (dt : Except String DtResponse) : UploadOutcome :=
  if !("Bearer ".data.isPrefixOf authorization.data) then
    .failure 401 "Invalid Authorization header format"
  else
  match parse with
  | none => .failure 401 "Invalid token"
  | some unverified_claims =>
  match claimsGet unverified_claims "iss" with
  | none => .failure 401 "Invalid token"
  | some unverified_issuer =>
  if !Projects.has_issuer projects unverified_issuer then
    .failure 401 "Issuer not allowed"
  else
  match verify with
  | .typeError =>
      .pythonError "TypeError: verify_token missing 1 required positional argument: required_claims"
  | .tokenError _ => .failure 401 "Token verification failed"
  | .ok verified_claims =>
  match Projects.find_project_by_claims projects verified_claims with
  | .error () => .pythonError "KeyError: iss"
  | .ok none => .failure 401 "No matching project found for token claims"
  | .ok (some _project) =>
  match dt with
  | .error _ => .failure 502 "Failed to upload to DependencyTrack"
  | .ok resp => .relayed resp.status_code resp.content

/-! ### Theorems -/

/-- Specification-side matching predicate, transcribed from the claim
wording for comparison with `find_project_by_claims`: a project matches
claims `c` with `iss` value `v` iff its issuer equals `v` by exact string
equality and every `required_claims` entry `(n, val)` is present in `c`
with exactly the value `val`. -/
def specProjectMatch (v : JVal) (c : Claims) (p : Project) : Prop :=
  v = JVal.str p.issuer ∧
    ∀ n val, (n, val) ∈ p.required_claims → claimsGet c n = some (JVal.str val)

/-- The loop condition of `find_project_by_claims` agrees with the
specification-side matching predicate. -/
theorem match_pred_iff_specProjectMatch (v : JVal) (c : Claims) (p : Project) :
    (p.match_issuer v && p.match_claims c) = true ↔ specProjectMatch v c p := by
  unfold Project.match_issuer Project.match_claims specProjectMatch
  simp only [Bool.and_eq_true, beq_iff_eq, List.all_eq_true, Prod.forall]

/-- C10: `find_project_by_claims` is partial at its public interface: a
claims mapping without the key `iss` makes `token_claims["iss"]` raise
`KeyError` (the `.error` outcome) instead of returning a
project-or-`None` result. -/
theorem find_project_by_claims_raises_on_missing_iss (root : List Project)
    (token_claims : Claims) (h : claimsGet token_claims "iss" = none) :
    Projects.find_project_by_claims root token_claims = .error () := by
  unfold Projects.find_project_by_claims
  rw [h]

theorem find_project_by_claims_raises_on_missing_iss_witness :
    claimsGet [("sub", JVal.str "x")] "iss" = none ∧
    Projects.find_project_by_claims [⟨"p", "https://idp.example", "u", []⟩]
      [("sub", JVal.str "x")] = .error () :=
  ⟨by decide, find_project_by_claims_raises_on_missing_iss _ _ (by decide)⟩

/-- C7: `has_issuer` is true iff some registered project's issuer equals
the given string exactly; every registered issuer is accepted; and there
is no trailing-slash normalization, so `https://x` and `https://x/` are
distinct issuers. -/
theorem has_issuer_exact_string (root : List Project) (s : String) :
    (Projects.has_issuer root (JVal.str s) = true ↔ ∃ p ∈ root, p.issuer = s) ∧
    (∀ p ∈ root, Projects.has_issuer root (JVal.str p.issuer) = true) ∧
    (Projects.has_issuer [⟨"proj", "https://x", "uuid", []⟩]
        (JVal.str "https://x/") = false ∧
      Projects.has_issuer [⟨"proj", "https://x", "uuid", []⟩]
        (JVal.str "https://x") = true) := by
  refine ⟨?_, ?_, by decide⟩
  · simp only [Projects.has_issuer, List.any_eq_true, Project.match_issuer,
      beq_iff_eq, JVal.str.injEq]
    constructor
    · rintro ⟨p, hp, rfl⟩
      exact ⟨p, hp, rfl⟩
    · rintro ⟨p, hp, rfl⟩
      exact ⟨p, hp, rfl⟩
  · intro p hp
    simp only [Projects.has_issuer, List.any_eq_true]
    exact ⟨p, hp, by simp [Project.match_issuer]⟩

theorem has_issuer_exact_string_witness :
    Projects.has_issuer [⟨"proj", "https://x", "uuid", []⟩]
      (JVal.str "https://x") = true :=
  (has_issuer_exact_string [⟨"proj", "https://x", "uuid", []⟩] "https://x").2.1
    ⟨"proj", "https://x", "uuid", []⟩ (by simp)

/-- C2: with `iss` present in the claims, `find_project_by_claims` returns
the first project (in registry iteration order) whose issuer equals the
`iss` value exactly and whose every required-claims entry is satisfied,
and `None` when no project matches; an absent required claim is a
non-match rather than an error, and a project with empty
`required_claims` matches on issuer equality alone. -/
theorem find_project_by_claims_spec (root : List Project) (c : Claims)
    (v : JVal) (h : claimsGet c "iss" = some v) :
    (∀ p : Project, Projects.find_project_by_claims root c = .ok (some p) →
        ∃ l₁ l₂, root = l₁ ++ p :: l₂ ∧ specProjectMatch v c p ∧
          ∀ q ∈ l₁, ¬ specProjectMatch v c q) ∧
    (Projects.find_project_by_claims root c = .ok none ↔
        ∀ p ∈ root, ¬ specProjectMatch v c p) ∧
    (∀ p : Project, ∀ n val, (n, val) ∈ p.required_claims →
        claimsGet c n = none → p.match_claims c = false) ∧
    (∀ p : Project, p.required_claims = [] → p.match_claims c = true) := by
  refine ⟨?_, ?_, ?_, ?_⟩
  · intro p hp
    unfold Projects.find_project_by_claims at hp
    rw [h] at hp
    simp only [Except.ok.injEq] at hp
    rw [List.find?_eq_some] at hp
    obtain ⟨hmatch, l₁, l₂, rfl, hbefore⟩ := hp
    refine ⟨l₁, l₂, rfl, (match_pred_iff_specProjectMatch v c p).mp hmatch, ?_⟩
    intro q hq hspec
    have hb := hbefore q hq
    rw [(match_pred_iff_specProjectMatch v c q).mpr hspec] at hb
    simp at hb
  · unfold Projects.find_project_by_claims
    rw [h]
    simp only [Except.ok.injEq, List.find?_eq_none]
    constructor
    · intro hnone p hp hspec
      exact hnone p hp ((match_pred_iff_specProjectMatch v c p).mpr hspec)
    · intro hno p hp hpred
      exact hno p hp ((match_pred_iff_specProjectMatch v c p).mp hpred)
  · intro p n val hmem hnone
    apply Bool.eq_false_iff.mpr
    intro hall
    rw [Project.match_claims, List.all_eq_true] at hall
    have := hall (n, val) hmem
    rw [hnone] at this
    exact absurd (Option.noConfusion (eq_of_beq this)) id
  · intro p hempty
    simp [Project.match_claims, hempty]

theorem find_project_by_claims_spec_witness :
    claimsGet [("iss", JVal.str "https://idp.example"),
        ("repository", JVal.str "org/app")] "iss" =
      some (JVal.str "https://idp.example") ∧
    (Projects.find_project_by_claims
        [⟨"p1", "https://idp.example", "u1", [("repository", "org/app")]⟩]
        [("iss", JVal.str "https://idp.example"),
          ("repository", JVal.str "org/app")] = .ok none ↔
      ∀ q ∈ [(⟨"p1", "https://idp.example", "u1",
          [("repository", "org/app")]⟩ : Project)],
        ¬ specProjectMatch (JVal.str "https://idp.example")
          [("iss", JVal.str "https://idp.example"),
            ("repository", JVal.str "org/app")] q) :=
  ⟨by decide, (find_project_by_claims_spec _ _ _ (by decide)).2.1⟩

/-- An entry failing validation anywhere in the document makes the whole
validation fail. -/
theorem validateEntries_error_of_mem (es : List RawEntry) (e : RawEntry)
    (hmem : e ∈ es) (herr : ∃ m, validateEntry e = .error m) :
    ∃ m, validateEntries es = .error m := by
  induction es with
  | nil => cases hmem
  | cons a as ih =>
    simp only [validateEntries]
    cases hva : validateEntry a with
    | error m => exact ⟨m, rfl⟩
    | ok p =>
      rcases List.mem_cons.mp hmem with rfl | hmem2
      · obtain ⟨m, hm⟩ := herr
        rw [hva] at hm
        cases hm
      · obtain ⟨m, hm⟩ := ih hmem2
        rw [hm]
        exact ⟨m, rfl⟩

/-- A raw entry with a missing required field or a non-HTTPS issuer fails
validation. -/
theorem validateEntry_error_of_invalid (e : RawEntry)
    (h : e.project_id = none ∨ e.issuer = none ∨ e.dt_parent_uuid = none ∨
      ∃ iss, e.issuer = some iss ∧ isHttpsUrl iss = false) :
    ∃ m, validateEntry e = .error m := by
  unfold validateEntry
  cases hp : e.project_id with
  | none => exact ⟨_, rfl⟩
  | some pid =>
    cases hi : e.issuer with
    | none => exact ⟨_, rfl⟩
    | some iss =>
      by_cases hurl : isHttpsUrl iss = true
      · have hdt : e.dt_parent_uuid = none := by
          rcases h with h | h | h | ⟨iss2, hiss2, hbad⟩
          · rw [hp] at h; cases h
          · rw [hi] at h; cases h
          · exact h
          · rw [hi] at hiss2
            injection hiss2 with h2
            subst h2
            rw [hurl] at hbad
            cases hbad
        simp [hdt, hurl]
      · rw [Bool.not_eq_true] at hurl
        simp [hurl]

/-- C8: loading the registry does not produce a registry whenever the
source is unreadable, the parsed document is not a list of entries, or
any entry fails validation (missing `project_id`, `issuer` or
`dt_parent_uuid`, or an issuer that is not an HTTPS URL).  The registry
schema is a plain list, so it carries no duplicate-identity constraint
that could additionally be violated. -/
theorem from_yaml_file_rejects_invalid (es : List RawEntry) (e : RawEntry)
    (hmem : e ∈ es)
    (hbad : e.project_id = none ∨ e.issuer = none ∨ e.dt_parent_uuid = none ∨
      ∃ iss, e.issuer = some iss ∧ isHttpsUrl iss = false) :
    (∃ m, from_yaml_file .unreadable = .error m) ∧
    (∃ m, from_yaml_file .notAList = .error m) ∧
    (∃ m, from_yaml_file (.entries es) = .error m) :=
  ⟨⟨_, rfl⟩, ⟨_, rfl⟩,
    validateEntries_error_of_mem es e hmem (validateEntry_error_of_invalid e hbad)⟩

theorem from_yaml_file_rejects_invalid_witness :
    (⟨some "pid", some "http://x.example", some "u", none⟩ : RawEntry) ∈
        [(⟨some "pid", some "http://x.example", some "u", none⟩ : RawEntry)] ∧
      ∃ m, from_yaml_file
        (.entries [⟨some "pid", some "http://x.example", some "u", none⟩]) =
        .error m :=
  ⟨List.mem_singleton.mpr rfl,
    (from_yaml_file_rejects_invalid
      [⟨some "pid", some "http://x.example", some "u", none⟩]
      ⟨some "pid", some "http://x.example", some "u", none⟩
      (List.mem_singleton.mpr rfl)
      (Or.inr (Or.inr (Or.inr ⟨"http://x.example", rfl, by decide⟩)))).2.2⟩

/-- A successful `jwtDecodeExpAud` returns exactly the token claim set. -/
theorem jwtDecodeExpAud_ok (tok : Jwt) (audience : String) (now : Int)
    (claims : Claims) (h : jwtDecodeExpAud tok audience now = .ok claims) :
    claims = tok.claims := by
  unfold jwtDecodeExpAud at h
  split at h
  · cases h
  · split at h
    · cases h
    · split at h
      · split at h
        · injection h with h
          exact h.symm
        · cases h
      · cases h
      · cases h
  · split at h
    · split at h
      · injection h with h
        exact h.symm
      · cases h
    · cases h
    · cases h

/-- A successful `jwtDecodeVerify` returns exactly the token claim set and
implies that every required claim name is present in it. -/
theorem jwtDecodeVerify_ok (tok : Jwt) (key : SigningKey) (audience : String)
    (require : List String) (now : Int) (claims : Claims)
    (h : jwtDecodeVerify tok key audience require now = .ok claims) :
    claims = tok.claims ∧
      (require.all (fun n => (claimsGet tok.claims n).isSome)) = true := by
  unfold jwtDecodeVerify at h
  split at h
  · cases h
  · split at h
    · cases h
    · split at h
      · cases h
      · rename_i hreq
        rw [Bool.not_eq_true, Bool.not_eq_false'] at hreq
        refine ⟨?_, hreq⟩
        split at h
        · cases h
        · split at h
          · cases h
          · split at h
            · cases h
            · exact jwtDecodeExpAud_ok tok audience now claims h
          · exact jwtDecodeExpAud_ok tok audience now claims h

/-- `jwtDecodeVerify` rejects any token whose header algorithm is not
`RS256` (the only entry of the `algorithms` allowlist). -/
theorem jwtDecodeVerify_alg_reject (tok : Jwt) (key : SigningKey)
    (audience : String) (require : List String) (now : Int)
    (h : tok.alg ≠ "RS256") :
    jwtDecodeVerify tok key audience require now =
      .error "The specified alg value is not allowed" := by
  have hb : (tok.alg != "RS256") = true := by
    simp [bne_iff_ne]
    exact h
  simp [jwtDecodeVerify, hb]

/-- C4: `verify_token` never returns claims for a token whose signature
uses a symmetric algorithm (`HS256`, `HS384` or `HS512`), for every
issuer, expected audience and required-claims set, and whatever the
discovery, key-resolution and signature outcomes are. -/
theorem verify_token_rejects_symmetric (env : VerifyEnv) (tok : Jwt)
    (issuer expected_audience : String) (required_claims : List String)
    (claims : Claims)
    (h : tok.alg = "HS256" ∨ tok.alg = "HS384" ∨ tok.alg = "HS512") :
    verify_token env tok issuer expected_audience required_claims ≠
      .ok claims := by
  have halg : tok.alg ≠ "RS256" := by
    rcases h with h | h | h <;> simp [h]
  intro hok
  unfold verify_token at hok
  split at hok
  · cases hok
  · split at hok
    · cases hok
    · split at hok
      · cases hok
      · split at hok
        · cases hok
        · rw [jwtDecodeVerify_alg_reject _ _ _ _ _ halg] at hok
          cases hok

theorem verify_token_rejects_symmetric_witness :
    verify_token ⟨.ok ⟨some "https://idp.example/jwks"⟩, .ok ⟨"k1"⟩, 1000⟩
        ⟨"HS256", [("aud", JVal.str "pia.eclipse.org"), ("exp", JVal.num 2000),
          ("iat", JVal.num 500)], ["k1"]⟩
        "https://idp.example" "pia.eclipse.org" [] ≠
      .ok [("aud", JVal.str "pia.eclipse.org"), ("exp", JVal.num 2000),
        ("iat", JVal.num 500)] :=
  verify_token_rejects_symmetric _ _ _ _ _ _ (Or.inl rfl)

/-- C3 counterexample: a call of `verify_token` that succeeds although the
returned claims contain no `iss` key at all — the `require` set passed to
`jwt.decode` is `{"aud","exp","iat"} | required_claims` and does not
include `iss`, so presence of `iss` is not enforced. -/
theorem verify_token_success_without_iss :
    verify_token ⟨.ok ⟨some "https://idp.example/jwks"⟩, .ok ⟨"k1"⟩, 1000⟩
        ⟨"RS256", [("aud", JVal.str "pia.eclipse.org"), ("exp", JVal.num 2000),
          ("iat", JVal.num 500)], ["k1"]⟩
        "https://idp.example" "pia.eclipse.org" [] =
      .ok [("aud", JVal.str "pia.eclipse.org"), ("exp", JVal.num 2000),
        ("iat", JVal.num 500)] ∧
    claimsGet [("aud", JVal.str "pia.eclipse.org"), ("exp", JVal.num 2000),
        ("iat", JVal.num 500)] "iss" = none :=
  ⟨rfl, rfl⟩

/-- C3 (amended): every claims mapping returned by a successful
`verify_token` call contains the keys `aud`, `exp` and `iat` plus every
additionally required claim name supplied by the caller; `iss` is
guaranteed only if it is itself among the required claim names. -/
theorem verify_token_success_contains_required (env : VerifyEnv) (tok : Jwt)
    (issuer expected_audience : String) (required_claims : List String)
    (claims : Claims)
    (h : verify_token env tok issuer expected_audience required_claims =
      .ok claims) :
    ∀ n, n ∈ ["aud", "exp", "iat"] ++ required_claims →
      (claimsGet claims n).isSome = true := by
  unfold verify_token at h
  split at h
  · cases h
  · split at h
    · cases h
    · split at h
      · cases h
      · split at h
        · cases h
        · obtain ⟨rfl, hall⟩ := jwtDecodeVerify_ok _ _ _ _ _ _ h
          rw [List.all_eq_true] at hall
          exact hall

theorem verify_token_success_contains_required_witness :
    verify_token ⟨.ok ⟨some "https://idp.example/jwks"⟩, .ok ⟨"k1"⟩, 1000⟩
        ⟨"RS256", [("iss", JVal.str "https://idp.example"),
          ("aud", JVal.str "pia.eclipse.org"), ("exp", JVal.num 2000),
          ("iat", JVal.num 500), ("repository", JVal.str "org/app")], ["k1"]⟩
        "https://idp.example" "pia.eclipse.org" ["repository"] =
      .ok [("iss", JVal.str "https://idp.example"),
        ("aud", JVal.str "pia.eclipse.org"), ("exp", JVal.num 2000),
        ("iat", JVal.num 500), ("repository", JVal.str "org/app")] ∧
    (claimsGet [("iss", JVal.str "https://idp.example"),
        ("aud", JVal.str "pia.eclipse.org"), ("exp", JVal.num 2000),
        ("iat", JVal.num 500), ("repository", JVal.str "org/app")]
      "repository").isSome = true :=
  ⟨rfl, verify_token_success_contains_required
    ⟨.ok ⟨some "https://idp.example/jwks"⟩, .ok ⟨"k1"⟩, 1000⟩
    ⟨"RS256", [("iss", JVal.str "https://idp.example"),
      ("aud", JVal.str "pia.eclipse.org"), ("exp", JVal.num 2000),
      ("iat", JVal.num 500), ("repository", JVal.str "org/app")], ["k1"]⟩
    "https://idp.example" "pia.eclipse.org" ["repository"]
    [("iss", JVal.str "https://idp.example"),
      ("aud", JVal.str "pia.eclipse.org"), ("exp", JVal.num 2000),
      ("iat", JVal.num 500), ("repository", JVal.str "org/app")]
    rfl "repository" (by decide)⟩

/-- `jwtDecodeExpAud` succeeds, returning the token claim set, whenever
`exp` is a future integer and `aud` equals the expected audience. -/
theorem jwtDecodeExpAud_ok_of (tok : Jwt) (audience : String) (now : Int)
    (e : Int) (hexp : claimsGet tok.claims "exp" = some (JVal.num e))
    (hfut : ¬ e ≤ now)
    (haud : claimsGet tok.claims "aud" = some (JVal.str audience)) :
    jwtDecodeExpAud tok audience now = .ok tok.claims := by
  unfold jwtDecodeExpAud
  split
  · rename_i s hs
    rw [hexp] at hs
    cases hs
  · rename_i e2 hs
    rw [hexp] at hs
    injection hs with hs
    injection hs with hs
    subst hs
    rw [if_neg hfut]
    split
    · rename_i a ha
      rw [haud] at ha
      injection ha with ha
      injection ha with ha
      subst ha
      rw [if_pos (by simp)]
    · rename_i a ha
      rw [haud] at ha
      cases ha
    · rename_i ha
      rw [haud] at ha
      cases ha
  · rename_i hs1 hs2
    exact absurd hexp (hs2 e)

/-- The `jwt.decode` stage succeeds with the token claim set whenever the
algorithm, signature, required-claim, temporal and audience checks pass
(no condition mentions `iss`). -/
theorem verify_token_decode_ok (tok : Jwt) (key : SigningKey)
    (expected_audience : String) (required_claims : List String) (now : Int)
    (halg : tok.alg = "RS256")
    (hsig : tok.validKeys.contains key.kid = true)
    (hreq : ((["aud", "exp", "iat"] ++ required_claims).all
        (fun n => (claimsGet tok.claims n).isSome)) = true)
    (hiat : claimsGet tok.claims "iat" = none ∨
      ∃ n : Int, claimsGet tok.claims "iat" = some (JVal.num n))
    (hnbf : claimsGet tok.claims "nbf" = none ∨
      ∃ n : Int, claimsGet tok.claims "nbf" = some (JVal.num n) ∧ n ≤ now)
    (hexp : ∃ e : Int, claimsGet tok.claims "exp" = some (JVal.num e) ∧
      ¬ e ≤ now)
    (haud : claimsGet tok.claims "aud" = some (JVal.str expected_audience)) :
    jwtDecodeVerify tok key expected_audience
      (["aud", "exp", "iat"] ++ required_claims) now = .ok tok.claims := by
  obtain ⟨e, hexpEq, hfut⟩ := hexp
  unfold jwtDecodeVerify
  rw [if_neg (by rw [halg]; decide), if_neg (by rw [hsig]; decide),
    if_neg (by rw [hreq]; decide)]
  split
  · rename_i s hs
    rcases hiat with hiat | ⟨n, hiat⟩ <;> rw [hiat] at hs <;> cases hs
  · split
    · rename_i s hs
      rcases hnbf with hnbf | ⟨n, hnbf, _⟩ <;> rw [hnbf] at hs <;> cases hs
    · rename_i n hs
      rcases hnbf with hnbf | ⟨n2, hnbf, hle⟩
      · rw [hnbf] at hs
        cases hs
      · rw [hnbf] at hs
        injection hs with hs
        injection hs with hs
        subst hs
        rw [if_neg (not_lt.mpr hle)]
        exact jwtDecodeExpAud_ok_of tok expected_audience now e hexpEq hfut haud
    · exact jwtDecodeExpAud_ok_of tok expected_audience now e hexpEq hfut haud

/-- C5: `verify_token` performs no equality check between the token's
`iss` claim and its `issuer` argument (the argument only selects the
discovery URL): whenever discovery, key resolution, the RS256 signature,
the required-claim presence check and the temporal and audience
validations succeed, the token's claims are returned even though its
`iss` claim differs from the `issuer` argument (or is absent). -/
theorem verify_token_no_iss_check (env : VerifyEnv) (tok : Jwt)
    (issuer expected_audience : String) (required_claims : List String)
    (cfg : OidcConfig) (u : String) (key : SigningKey)
    (hfc : env.fetchConfig = .ok cfg) (hju : cfg.jwks_uri = some u)
    (hu : (u == "") = false) (hkey : env.getKey = .ok key)
    (halg : tok.alg = "RS256")
    (hsig : tok.validKeys.contains key.kid = true)
    (hreq : ((["aud", "exp", "iat"] ++ required_claims).all
        (fun n => (claimsGet tok.claims n).isSome)) = true)
    (hiat : claimsGet tok.claims "iat" = none ∨
      ∃ n : Int, claimsGet tok.claims "iat" = some (JVal.num n))
    (hnbf : claimsGet tok.claims "nbf" = none ∨
      ∃ n : Int, claimsGet tok.claims "nbf" = some (JVal.num n) ∧ n ≤ env.now)
    (hexp : ∃ e : Int, claimsGet tok.claims "exp" = some (JVal.num e) ∧
      ¬ e ≤ env.now)
    (haud : claimsGet tok.claims "aud" = some (JVal.str expected_audience))
    (_hiss : claimsGet tok.claims "iss" ≠ some (JVal.str issuer)) :
    verify_token env tok issuer expected_audience required_claims =
      .ok tok.claims := by
  obtain ⟨e, hexpEq, hfut⟩ := hexp
  unfold verify_token
  split
  · rename_i e2 he2
    rw [hfc] at he2
    cases he2
  · rename_i cfg2 hcfg2
    rw [hfc] at hcfg2
    injection hcfg2 with hcfg2
    subst hcfg2
    split
    · rename_i hnone
      rw [hju] at hnone
      cases hnone
    · rename_i u2 hu2
      rw [hju] at hu2
      injection hu2 with hu2
      subst hu2
      rw [if_neg (by rw [hu]; exact Bool.false_ne_true)]
      split
      · rename_i e2 he2
        rw [hkey] at he2
        cases he2
      · rename_i key2 hk2
        rw [hkey] at hk2
        injection hk2 with hk2
        subst hk2
        exact verify_token_decode_ok tok key expected_audience required_claims
          env.now halg hsig hreq hiat hnbf ⟨e, hexpEq, hfut⟩ haud

theorem verify_token_no_iss_check_witness :
    claimsGet [("iss", JVal.str "https://other.example"),
        ("aud", JVal.str "pia.eclipse.org"), ("exp", JVal.num 2000),
        ("iat", JVal.num 500)] "iss" ≠
      some (JVal.str "https://idp.example") ∧
    verify_token ⟨.ok ⟨some "https://idp.example/jwks"⟩, .ok ⟨"k1"⟩, 1000⟩
        ⟨"RS256", [("iss", JVal.str "https://other.example"),
          ("aud", JVal.str "pia.eclipse.org"), ("exp", JVal.num 2000),
          ("iat", JVal.num 500)], ["k1"]⟩
        "https://idp.example" "pia.eclipse.org" [] =
      .ok [("iss", JVal.str "https://other.example"),
        ("aud", JVal.str "pia.eclipse.org"), ("exp", JVal.num 2000),
        ("iat", JVal.num 500)] :=
  ⟨by decide,
    verify_token_no_iss_check
      ⟨.ok ⟨some "https://idp.example/jwks"⟩, .ok ⟨"k1"⟩, 1000⟩
      ⟨"RS256", [("iss", JVal.str "https://other.example"),
        ("aud", JVal.str "pia.eclipse.org"), ("exp", JVal.num 2000),
        ("iat", JVal.num 500)], ["k1"]⟩
      "https://idp.example" "pia.eclipse.org" []
      ⟨some "https://idp.example/jwks"⟩ "https://idp.example/jwks" ⟨"k1"⟩
      rfl rfl (by decide) rfl rfl (by decide) (by decide)
      (Or.inr ⟨500, rfl⟩) (Or.inl rfl) ⟨2000, rfl, by decide⟩
      rfl (by decide)⟩

/-- C1 (divergence witness): the handler maps rejections at the
bearer-scheme, decode and pre-filter steps to the uniform 401, but every
request that passes the issuer pre-filter hits the
`oidc.verify_token(token, unverified_issuer, settings.expected_audience)`
call, which raises `TypeError` (`pia/oidc.py` declares a fourth required
positional parameter `required_claims`), an exception the
`except oidc.TokenVerificationError` clause does not catch — so the
request fails with an uncaught server error instead of the generic 401. -/
theorem upload_sbom_verify_call_type_error :
    upload_sbom [⟨"pia-project", "https://idp.example", "uuid-1", []⟩]
        "Basic t" (some [("iss", JVal.str "https://idp.example")])
        actualVerifyOutcome (.ok ⟨200, "ok"⟩) =
      .failure 401 "Invalid Authorization header format" ∧
    upload_sbom [⟨"pia-project", "https://idp.example", "uuid-1", []⟩]
        "Bearer t" none actualVerifyOutcome (.ok ⟨200, "ok"⟩) =
      .failure 401 "Invalid token" ∧
    upload_sbom [⟨"pia-project", "https://idp.example", "uuid-1", []⟩]
        "Bearer t" (some [("iss", JVal.str "https://other.example")])
        actualVerifyOutcome (.ok ⟨200, "ok"⟩) =
      .failure 401 "Issuer not allowed" ∧
    upload_sbom [⟨"pia-project", "https://idp.example", "uuid-1", []⟩]
        "Bearer t" (some [("iss", JVal.str "https://idp.example")])
        actualVerifyOutcome (.ok ⟨200, "ok"⟩) =
      .pythonError
        "TypeError: verify_token missing 1 required positional argument: required_claims" :=
  ⟨rfl, rfl, rfl, rfl⟩

/-- C6: a request whose unverified `iss` value matches no registered
project's issuer is rejected 401 at the pre-filter, for every outcome of
the verification call and of the downstream relay — the rejection is
independent of both, so no discovery or key fetch is performed. -/
theorem upload_sbom_prefilter_before_network (projects : List Project)
    (authorization : String) (uc : Claims) (v : JVal)
    (hauth : ("Bearer ".data.isPrefixOf authorization.data) = true)
    (hparse : claimsGet uc "iss" = some v)
    (hissuer : Projects.has_issuer projects v = false)
    (verify : VerifyOutcome) (dt : Except String DtResponse) :
    upload_sbom projects authorization (some uc) verify dt =
      .failure 401 "Issuer not allowed" := by
  unfold upload_sbom
  rw [if_neg (by rw [hauth]; decide)]
  split
  · rename_i hnone
    cases hnone
  · rename_i c2 hc2
    injection hc2 with hc2
    subst hc2
    split
    · rename_i hnone
      rw [hparse] at hnone
      cases hnone
    · rename_i v2 hv2
      rw [hparse] at hv2
      injection hv2 with hv2
      subst hv2
      rw [if_pos (by rw [hissuer]; decide)]

theorem upload_sbom_prefilter_before_network_witness :
    ("Bearer ".data.isPrefixOf "Bearer t".data) = true ∧
    upload_sbom [⟨"pia-project", "https://idp.example", "uuid-1", []⟩]
        "Bearer t" (some [("iss", JVal.str "https://other.example")])
        actualVerifyOutcome (.error "unreachable downstream") =
      .failure 401 "Issuer not allowed" :=
  ⟨by decide,
    upload_sbom_prefilter_before_network
      [⟨"pia-project", "https://idp.example", "uuid-1", []⟩] "Bearer t"
      [("iss", JVal.str "https://other.example")]
      (JVal.str "https://other.example") (by decide) (by decide) (by decide)
      actualVerifyOutcome (.error "unreachable downstream")⟩

/-- C9: once a request is authorized (verification returned claims and a
project matched), a transport error from the DependencyTrack relay is
surfaced as 502 — distinct from the 401 used for authorization failures —
while any downstream response that arrives is relayed to the caller with
its status code and content verbatim. -/
theorem upload_sbom_downstream_relay (projects : List Project)
    (authorization : String) (uc vc : Claims) (v : JVal) (p : Project)
    (hauth : ("Bearer ".data.isPrefixOf authorization.data) = true)
    (hparse : claimsGet uc "iss" = some v)
    (hissuer : Projects.has_issuer projects v = true)
    (hfind : Projects.find_project_by_claims projects vc = .ok (some p)) :
    (∀ err : String,
      upload_sbom projects authorization (some uc) (.ok vc) (.error err) =
        .failure 502 "Failed to upload to DependencyTrack") ∧
    (∀ resp : DtResponse,
      upload_sbom projects authorization (some uc) (.ok vc) (.ok resp) =
        .relayed resp.status_code resp.content) := by
  constructor <;> intro x <;>
    (unfold upload_sbom
     rw [if_neg (by rw [hauth]; decide)]
     split
     · rename_i hnone
       cases hnone
     · rename_i c2 hc2
       injection hc2 with hc2
       subst hc2
       split
       · rename_i hnone
         rw [hparse] at hnone
         cases hnone
       · rename_i v2 hv2
         rw [hparse] at hv2
         injection hv2 with hv2
         subst hv2
         rw [if_neg (by rw [hissuer]; decide)]
         split
         · rename_i herr
           cases herr
         · rename_i m hm
           cases hm
         · rename_i c3 hc3
           injection hc3 with hc3
           subst hc3
           split
           · rename_i herr
             rw [hfind] at herr
             cases herr
           · rename_i hnone2
             rw [hfind] at hnone2
             injection hnone2 with hnone2
             cases hnone2
           · rfl)

theorem upload_sbom_downstream_relay_witness :
    upload_sbom [⟨"pia-project", "https://idp.example", "uuid-1", []⟩]
        "Bearer t" (some [("iss", JVal.str "https://idp.example")])
        (.ok [("iss", JVal.str "https://idp.example")]) (.error "timeout") =
      .failure 502 "Failed to upload to DependencyTrack" ∧
    upload_sbom [⟨"pia-project", "https://idp.example", "uuid-1", []⟩]
        "Bearer t" (some [("iss", JVal.str "https://idp.example")])
        (.ok [("iss", JVal.str "https://idp.example")]) (.ok ⟨201, "created"⟩) =
      .relayed 201 "created" :=
  ⟨(upload_sbom_downstream_relay
      [⟨"pia-project", "https://idp.example", "uuid-1", []⟩] "Bearer t"
      [("iss", JVal.str "https://idp.example")]
      [("iss", JVal.str "https://idp.example")]
      (JVal.str "https://idp.example")
      ⟨"pia-project", "https://idp.example", "uuid-1", []⟩
      (by decide) (by decide) (by decide) rfl).1 "timeout",
    (upload_sbom_downstream_relay
      [⟨"pia-project", "https://idp.example", "uuid-1", []⟩] "Bearer t"
      [("iss", JVal.str "https://idp.example")]
      [("iss", JVal.str "https://idp.example")]
      (JVal.str "https://idp.example")
      ⟨"pia-project", "https://idp.example", "uuid-1", []⟩
      (by decide) (by decide) (by decide) rfl).2 ⟨201, "created"⟩⟩
